import Mathlib

/-!
Shallow embedding of the renderpyg keyframe animation engine
(src/renderpyg/sprite.py, class GPUAniSprite) and of the menu state
machine (src/renderpyg/menu.py, class Menu), restricted to the state and
operations the verified claims are about.  Pure drawing calls (texture
blits, fonts, nine-patch rendering) are external collaborators and are
not modelled; the fields they read (frame id, flip flags, tint, alpha,
scale, position) are.  Python numerics are modelled as ℚ/ℤ/ℕ.
-/

namespace Renderpyg

/-- Python list subscription with an integer index: a non-negative index
reads from the front, a negative index reads from the end
(lst[i] = lst[len(lst)+i] for -len <= i < 0), anything else raises
IndexError, modelled as none. -/
def pyGet {α : Type} (l : List α) (i : ℤ) : Option α :=
  if 0 ≤ i then l[i.toNat]?
  else if 0 ≤ (l.length : ℤ) + i then l[((l.length : ℤ) + i).toNat]?
  else none

/-- Python 3 built-in round() with no digits argument: round half to
even, returning an int. -/
def pyRound (q : ℚ) : ℤ :=
  if q - ⌊q⌋ < 1/2 then ⌊q⌋
  else if 1/2 < q - ⌊q⌋ then ⌊q⌋ + 1
  else if ⌊q⌋ % 2 = 0 then ⌊q⌋ else ⌊q⌋ + 1

namespace Sprite

/-- Loop types of GPUAniSprite (sprite.py line 51). -/
inductive LoopType
  | forward
  | back_forth
deriving DecidableEq, Repr

/-- A keyframe as produced by keyfr() (sprite.py lines 429-450): a dict
holding the image index and duration, plus optional overrides.  A field
that is none corresponds to the key being absent from the kwargs dict. -/
structure Keyframe where
  frame : ℤ := 0
  duration : ℚ := 0
  angle : Option ℚ := none
  flipx : Option Bool := none
  flipy : Option Bool := none
  color : Option (ℕ × ℕ × ℕ) := none
  alpha : Option ℚ := none
  scale : Option ℚ := none
  pos : Option (ℚ × ℚ) := none
  velocity : Option (ℚ × ℚ) := none
  rotation : Option ℚ := none
  scaling : Option ℚ := none
  fading : Option ℚ := none
  coloring : Option (ℕ × ℕ × ℕ) := none
deriving DecidableEq, Repr

instance : Inhabited Keyframe := ⟨{}⟩

/-- The mutable state of a GPUAniSprite (sprite.py __init__, lines
80-99).  Images are identified by opaque numeric ids; image geometry
(dest_rect, anchor, transform, hitbox) belongs to the out-of-scope
renderer interface and is omitted.  event_queue holds opaque callback
ids; fired_events records, in order, the callbacks the engine has
invoked (the invocation itself is external). -/
structure Entity where
  images : List ℕ
  x : ℚ := 0
  y : ℚ := 0
  angle : ℚ := 0
  anim_frame : ℕ := 0
  anim_frames : List Keyframe := []
  loop_type : LoopType := .forward
  loop_count : ℤ := 0
  time_spent : ℚ := 0
  held_animation : Option (List Keyframe × ℕ × LoopType × ℤ) := none
  event_queue : List ℕ := []
  fired_events : List ℕ := []
  anim_queue : List (List Keyframe × ℤ × LoopType) := []
  speed : ℚ := 1
  velocity : Option (ℚ × ℚ) := none
  rotation : Option ℚ := none
  scaling : Option ℚ := none
  fading : Option ℚ := none
  coloring : Option (ℕ × ℕ × ℕ) := none
  frame : ℤ := 0
  image : ℕ := 0
  duration : ℚ := 0
  flipX : Bool := false
  flipY : Bool := false
  color : ℕ × ℕ × ℕ := (255, 255, 255)
  alpha : ℚ := 255
  scale : ℚ := 1
  pos : ℚ × ℚ := (0, 0)
deriving DecidableEq, Repr

/-- GPUAniSprite.set_frame (sprite.py lines 266-313).  The name lookup
self.names.get(frame, int(frame)) degenerates to int(frame): self.names
is set to the empty dict in __init__ and never populated.  The
try/except around self.images[self.frame] falls back to self.images[0]
(itself raising when images is empty, a state no claim reaches; modelled
by headD).  kwargs.get with a default models each optional key; a
keyframe pos of (0,0) is a falsy Vector2/tuple in the source, so the
x/y coordinates are only overwritten by a truthy (nonzero) pos.
Destination-rectangle geometry (lines 303-320) is external drawing
state and omitted. -/
def setFrame (e : Entity) (k : Keyframe) : Entity :=
  let img := match pyGet e.images k.frame with
    | some v => v
    | none => e.images.headD 0
  let p := k.pos.getD (0, 0)
  { e with
    time_spent := 0
    frame := k.frame
    image := img
    duration := k.duration
    angle := k.angle.getD e.angle
    flipX := k.flipx.getD false
    flipY := k.flipy.getD false
    color := k.color.getD (255, 255, 255)
    alpha := k.alpha.getD 255
    scale := k.scale.getD 1
    pos := p
    velocity := match k.velocity with | some v => some v | none => e.velocity
    rotation := match k.rotation with | some v => some v | none => e.rotation
    scaling := match k.scaling with | some v => some v | none => e.scaling
    fading := k.fading
    coloring := k.coloring
    x := if p ≠ (0, 0) then p.1 else e.x
    y := if p ≠ (0, 0) then p.2 else e.y }

/-- GPUAniSprite.stop (sprite.py lines 374-383). -/
def stop (e : Entity) : Entity :=
  { e with
    duration := 0
    velocity := none
    rotation := none
    scaling := none
    fading := none
    coloring := none }

/-- GPUAniSprite.set_animation (sprite.py lines 248-264).  On an empty
keyframe list the source raises IndexError at self.anim_frames[0]; the
claims only start non-empty animations, and the model then leaves the
display fields untouched. -/
def set_animation (e : Entity) (animation : List Keyframe) (loop_count : ℤ)
    (loop_type : LoopType) : Entity :=
  let e1 := { e with
    anim_frame := 0
    time_spent := 0
    anim_frames := animation
    loop_count := loop_count
    loop_type := loop_type }
  match animation with
  | [] => e1
  | k :: _ => setFrame e1 k

/-- Second half of GPUAniSprite._next_animation (sprite.py lines
150-153): fire and clear the event queue when the loop count is
exhausted.  Returns the Python truthiness of the method's return value
(None here, i.e. false). -/
def fireEvents (e : Entity) : Entity × Bool :=
  if e.event_queue ≠ [] ∧ e.loop_count ≤ 0 then
    ({ e with event_queue := [], fired_events := e.fired_events ++ e.event_queue }, false)
  else (e, false)

/-- GPUAniSprite._next_animation (sprite.py lines 137-153): restore a
held animation, else pop the FIFO animation queue when the loop count is
exhausted, else fire queued events.  The source assigns
held_animation = False after restoring; False and None are both falsy
and are modelled as none. -/
def next_animation (e : Entity) : Entity × Bool :=
  match e.held_animation with
  | some (fr, idx, lt, lc) =>
    ({ e with
        anim_frames := fr
        anim_frame := idx
        loop_type := lt
        loop_count := lc
        held_animation := none }, true)
  | none =>
    match e.anim_queue with
    | (a, lc, lt) :: rest =>
      if e.loop_count ≤ 0 then
        (set_animation { e with anim_queue := rest } a lc lt, true)
      else fireEvents e
    | [] => fireEvents e

/-- GPUAniSprite._next_frame (sprite.py lines 155-197).  The
try/except around len(self.anim_frames) never fires for a list-valued
anim_frames and is dropped.  Keyframe dicts built by keyfr() always
carry at least frame and duration, so the final `if set_frame:`
truthiness test only distinguishes "a keyframe was picked" from False,
as modelled.  In-range list accesses are modelled with get?/pyGet; the
none arms are unreachable under the guarding comparisons. -/
def next_frame (e0 : Entity) : Entity :=
  let e := { e0 with anim_frame := e0.anim_frame + 1 }
  let K := e.anim_frames.length
  match e.loop_type with
  | .forward =>
    if K ≤ e.anim_frame then
      let e1 := { e with loop_count := e.loop_count - 1 }
      match next_animation e1 with
      | (e2, true) => e2
      | (e2, false) =>
        if e2.loop_count ≠ 0 then
          let e3 := { e2 with anim_frame := 0 }
          match e3.anim_frames[0]? with
          | some k => setFrame e3 k
          | none => e3
        else stop e2
    else
      match e.anim_frames[e.anim_frame]? with
      | some k => setFrame e k
      | none => e
  | .back_forth =>
    if e.anim_frame < K then
      match e.anim_frames[e.anim_frame]? with
      | some k => setFrame e k
      | none => e
    else if e.anim_frame < 2 * K - 1 then
      match pyGet e.anim_frames ((K : ℤ) - (e.anim_frame : ℤ) - 2) with
      | some k => setFrame e k
      | none => e
    else
      let e1 := { e with anim_frame := 0, loop_count := e.loop_count - 1 }
      match next_animation e1 with
      | (e2, true) => e2
      | (e2, false) =>
        if e2.loop_count ≠ 0 then { e2 with anim_frame := 0 }
        else stop e2

/-- The velocity integration step of GPUAniSprite.update (sprite.py
lines 397-399); a stored velocity is a non-empty tuple and hence truthy
whenever present. -/
def moveStep (e : Entity) (d : ℚ) : Entity :=
  match e.velocity with
  | some (vx, vy) =>
    { e with x := e.x + vx * d * e.speed, y := e.y + vy * d * e.speed }
  | none => e

/-- The rotation integration step of GPUAniSprite.update (sprite.py
lines 400-402); a rotation rate is a number, truthy iff nonzero. -/
def rotateStep (e : Entity) (d : ℚ) : Entity :=
  match e.rotation with
  | some r => if r ≠ 0 then { e with angle := e.angle + r * d * e.speed } else e
  | none => e

/-- The scaling integration step of GPUAniSprite.update (sprite.py
lines 403-411); truthy iff nonzero. -/
def scaleStep (e : Entity) (d : ℚ) : Entity :=
  match e.scaling with
  | some s => if s ≠ 0 then { e with scale := e.scale + s * d * e.speed } else e
  | none => e

/-- The alpha fading step of GPUAniSprite.update (sprite.py lines
412-414); truthy iff nonzero; the new alpha is clamped to [0, 255]. -/
def fadeStep (e : Entity) (d : ℚ) : Entity :=
  match e.fading with
  | some f => if f ≠ 0 then
      { e with alpha := min (max (e.alpha - f * d * e.speed) 0) 255 }
    else e
  | none => e

/-- GPUAniSprite.update (sprite.py lines 386-426).  speed = 0 freezes
everything.  Destination/hit rectangle updates (lines 415-423) are
external drawing state and omitted.  At most one keyframe transition
fires per call, when duration is nonzero (truthy) and the accumulated
time exceeds abs(duration / speed). -/
def update (e : Entity) (delta : ℚ) : Entity :=
  if e.speed = 0 then e
  else
    let d := delta / 1000
    let e5 := fadeStep (scaleStep (rotateStep (moveStep
      { e with time_spent := e.time_spent + delta } d) d) d) d
    if e5.duration ≠ 0 ∧ e5.time_spent > |e5.duration / e5.speed| then next_frame e5
    else e5

/-- GPUAniSprite.interrupt (sprite.py lines 122-135): snapshot the
current animation state and play the given animation once. -/
def interrupt (e : Entity) (animation : List Keyframe) (loop_type : LoopType) : Entity :=
  let held := some (e.anim_frames, e.anim_frame, e.loop_type, e.loop_count)
  set_animation { e with held_animation := held } animation 0 loop_type

/-- GPUAniSprite.queue_animation (sprite.py lines 199-218). -/
def queue_animation (e : Entity) (animation : List Keyframe) (loop_count : ℤ)
    (loop_type : LoopType) : Entity :=
  if e.duration = 0 then set_animation e animation loop_count loop_type
  else { e with anim_queue := e.anim_queue ++ [(animation, loop_count, loop_type)] }

/-- The animation-control projection of an entity: the fields read and
written by the frame-sequencing logic, as opposed to the per-frame
display fields written by setFrame. -/
structure Ctrl where
  anim_frames : List Keyframe
  anim_frame : ℕ
  loop_type : LoopType
  loop_count : ℤ
  held_animation : Option (List Keyframe × ℕ × LoopType × ℤ)
  anim_queue : List (List Keyframe × ℤ × LoopType)
  event_queue : List ℕ
deriving DecidableEq, Repr

def ctrlOf (e : Entity) : Ctrl :=
  ⟨e.anim_frames, e.anim_frame, e.loop_type, e.loop_count,
   e.held_animation, e.anim_queue, e.event_queue⟩

/-- The ping-pong display index of the back_forth loop after n
transition ticks: 0..K-1 then mirrored K-2..0. -/
def bfMirror (K n : ℕ) : ℕ := if n < K then n else 2 * K - 2 - n

/-- A plain keyframe, keyfr(frame, duration) with no overrides. -/
def kf0 (i : ℤ) (d : ℚ) : Keyframe := { frame := i, duration := d }

/-- A three-image sprite with all-default state. -/
def demoEntity : Entity := { images := [0, 1, 2] }

/-- The spec's concrete scenario animation: three keyframes of 100 ms. -/
def anim100 : List Keyframe := [kf0 0 100, kf0 1 100, kf0 2 100]

/-- demoEntity playing anim100 as an infinite back_forth loop. -/
def bfDemo : Entity := set_animation demoEntity anim100 (-1) .back_forth

/-- demoEntity playing anim100 forward with loop_count 5. -/
def fwdDemo : Entity := set_animation demoEntity anim100 5 .forward

/-- A one-keyframe interrupt animation. -/
def animX : List Keyframe := [kf0 2 50]

end Sprite

namespace Menu

/-- A focused OPTION (toggle) row of an options menu: the fields of its
option dict touched by Menu._change_option (menu.py lines 263-272).
_process_options (line 1093) derives value = options[selected] at
construction. -/
structure ToggleOption where
  options : List String
  selected : ℤ
  value : String
deriving DecidableEq, Repr

/-- Menu._change_option, OPTION branch, keyboard path (menu.py lines
263-272) — no concurrent pointer press, so the direction argument is
used as passed.  Python % on a positive modulus returns a value in
[0, len); an empty options list would raise ZeroDivisionError (no claim
reaches it). -/
def changeToggleKey (o : ToggleOption) (direct : ℤ) : ToggleOption :=
  let sel := o.selected + direct
  let selected := sel % (o.options.length : ℤ)
  { o with
    selected := selected
    value := (pyGet o.options selected).getD "" }

/-- A focused SLIDER row: the fields of its option dict touched by
Menu._change_option (menu.py lines 273-282). -/
structure SliderOption where
  min : ℚ
  max : ℚ
  step : ℚ
  value : ℚ
deriving DecidableEq, Repr

/-- The shared store step of the SLIDER branch (menu.py lines 280-281):
option['value'] = round(min(max(round(v), low), high)). -/
def sliderStore (s : SliderOption) (v : ℚ) : ℚ :=
  ((pyRound (min (max ((pyRound v : ℤ) : ℚ) s.min) s.max) : ℤ) : ℚ)

/-- Menu._change_option, SLIDER branch, keyboard path (menu.py lines
279-281): v = value + step * direction, then the shared rounded clamp. -/
def changeSliderKey (s : SliderOption) (direct : ℤ) : SliderOption :=
  { s with value := sliderStore s (s.value + s.step * (direct : ℚ)) }

/-- Menu._change_option, SLIDER branch, pointer path (menu.py lines
274-277): the click x offset within the row rectangle of width w is
mapped linearly onto [min, max], then the shared rounded clamp. -/
def changeSliderPointer (s : SliderOption) (x w : ℚ) : SliderOption :=
  let f := x / w
  { s with value := sliderStore s (s.min + (s.max - s.min) * f) }

/-- The keyboard/window events consumed by Menu._get_input that the
claims exercise (quit, arrow keys, return/space confirm, escape). -/
inductive MEvent
  | quit
  | up
  | down
  | left
  | right
  | enter
  | space
  | escape
deriving DecidableEq, Repr

/-- The state of a Select-mode menu widget: the Menu attributes read and
written by select()/_handle_select/_get_input on the keyboard path.
max_items is the layout-computed page capacity (menu.py line 1402);
rects counts the per-item rectangles refilled by each _draw_select call;
a select menu has buttons = None and editing = 0, and no joystick is
attached. -/
structure SelectState where
  items : List String
  max_items : ℕ
  page : ℤ
  selected : ℤ
  rects : ℕ
  alive : Bool
  can_cancel : Bool
  first_shown : Bool
  ignore_input : Bool
deriving DecidableEq, Repr

/-- The per-tick input resolution accumulator of Menu._get_input:
move.x/move.y in {-1,0,1} and select encoded as 0 = False, 1 = True,
-1 = cancel (Python tests `if select:` and `if select >= 0:`). -/
structure InputAcc where
  movex : ℤ
  movey : ℤ
  select : ℤ
deriving DecidableEq, Repr

/-- One iteration of the event loops in Menu._get_input (menu.py lines
841-882) for a select widget: QUIT cancels when can_cancel; a KEYDOWN
first checks `not self.rects and not self.buttons` (any key confirms an
empty widget), then maps arrows to move axes, return/space to confirm,
and honors escape only when can_cancel and not first_shown.  first_shown
is only cleared after the whole loop, so it is read from the state
unchanged for every event of one tick. -/
def applyEvent (s : SelectState) (a : InputAcc) (ev : MEvent) : InputAcc :=
  match ev with
  | .quit => if s.can_cancel then { a with select := -1 } else a
  | .up => if s.rects = 0 then { a with select := 1 } else { a with movey := -1 }
  | .down => if s.rects = 0 then { a with select := 1 } else { a with movey := 1 }
  | .left => if s.rects = 0 then { a with select := 1 } else { a with movex := -1 }
  | .right => if s.rects = 0 then { a with select := 1 } else { a with movex := 1 }
  | .enter => if s.rects = 0 then { a with select := 1 } else { a with select := 1 }
  | .space => if s.rects = 0 then { a with select := 1 } else { a with select := 1 }
  | .escape =>
    if s.rects = 0 then { a with select := 1 }
    else if s.can_cancel ∧ ¬s.first_shown then { a with select := -1 }
    else a

/-- Menu._get_input (menu.py lines 832-981) on the keyboard path of a
select widget (no pointer, no joystick, not editing).  When ignore_input
is set the whole tick's input is swallowed and the flag cleared — before
the first_shown debounce flag is cleared, which therefore survives into
the next tick.  Otherwise the events are folded and first_shown is
cleared at the end. -/
def getInput (s : SelectState) (events : List MEvent) : SelectState × InputAcc :=
  if s.ignore_input then ({ s with ignore_input := false }, ⟨0, 0, 0⟩)
  else
    let a := events.foldl (applyEvent s) ⟨0, 0, 0⟩
    ({ s with first_shown := false }, a)

/-- The page count computed by _handle_select (menu.py line 1434):
int(len(self.items) / max_items + 0.9), i.e. the floor of
L/M + 9/10 = (10L + 9M)/(10M), computed here by natural floor division
(pyPages_eq_floor below proves the equality with the rational floor).
The source computes this in binary floating point; the exact model
agrees with the float result for every concrete pair of values appearing
in the theorems below (all far from representation-error ties). -/
def pyPages (L M : ℕ) : ℤ := (((10 * L + 9 * M) / (10 * M) : ℕ) : ℤ)

/-- The per-tick result of _handle_select: None, a cancel (None, None),
or the chosen (absolute index, item string). -/
inductive SelectResult
  | noResult
  | cancelled
  | chosen (index : ℤ) (item : String)
deriving DecidableEq, Repr

/-- The current page's slice of items drawn by _handle_select (menu.py
lines 1432-1437): the page slice when paging is active, all items
otherwise. -/
def selectOptions (s1 : SelectState) : List String :=
  if 0 ≤ s1.page then (s1.items.drop (s1.page.toNat * s1.max_items)).take s1.max_items
  else s1.items

/-- The focus/page movement step of _handle_select (menu.py lines
1440-1455): vertical motion moves the focus, else horizontal motion
advances the local page variable modulo the computed page count and
stores it back; returns the state and the local page variable. -/
def selectMove (s2 : SelectState) (a : InputAcc) (page0 pages : ℤ) :
    SelectState × ℤ :=
  if a.movey < 0 then ({ s2 with selected := s2.selected - 1 }, page0)
  else if 0 < a.movey then ({ s2 with selected := s2.selected + 1 }, page0)
  else if a.movex ≠ 0 ∧ 0 ≤ page0 then
    let p1 := if 0 < a.movex then (page0 + 1) % pages else page0
    let p2 := if a.movex < 0 then (p1 - 1) % pages else p1
    ({ s2 with page := p2 }, p2)
  else (s2, page0)

/-- The confirmation step of _handle_select (menu.py lines 1458-1467):
on a confirm, close the widget and return the absolute index
selected + page * max_items (the page term only added when page > 0,
which coincides with the absolute index on page 0) with the focused item
of the drawn slice; on a cancel just close. -/
def selectConfirm (s4 : SelectState) (a : InputAcc) (page : ℤ)
    (options : List String) : SelectState × SelectResult :=
  if a.select ≠ 0 then
    let s5 := { s4 with alive := false }
    if 0 ≤ a.select then
      let absIndex :=
        if 0 < page then s4.selected + page * (s4.max_items : ℤ) else s4.selected
      (s5, .chosen absIndex ((pyGet options s4.selected).getD ""))
    else (s5, .cancelled)
  else (s4, .noResult)

/-- Menu._handle_select (menu.py lines 1425-1467): resolve input, slice
the current page (drawing the slice refills self.rects), apply focus or
page motion, clamp the focus index modulo the drawn slice length, then
handle confirmation/cancel. -/
def handleSelect (s0 : SelectState) (events : List MEvent) :
    SelectState × SelectResult :=
  if ¬s0.alive then (s0, .noResult)
  else
    let si := getInput s0 events
    let s1 := si.1
    let a := si.2
    let page0 := s1.page
    let pages := pyPages s1.items.length s1.max_items
    let options := selectOptions s1
    let s2 := { s1 with rects := options.length }
    let sm := selectMove s2 a page0 pages
    let s4 := { sm.1 with
      selected := min (sm.1.selected % (options.length : ℤ)) (options.length : ℤ) }
    selectConfirm s4 a sm.2 options

/-- The widget state produced by Menu.select (menu.py lines 1360-1423)
with a layout-computed page capacity of max_items: page is -1 when
everything fits on one page and 0 otherwise, focus and rects start
empty, the widget is alive, _set_position has set the first_shown
debounce flag, and ignore_input swallows the first tick's events. -/
def mkSelect (items : List String) (max_items : ℕ) (can_cancel : Bool) : SelectState :=
  { items := items
    max_items := max_items
    page := if items.take max_items = items then -1 else 0
    selected := 0
    rects := 0
    alive := true
    can_cancel := can_cancel
    first_shown := true
    ignore_input := true }

end Menu

end Renderpyg

/-!
Lemmas about the embedded operations, followed by the claim theorems.
-/

namespace Renderpyg.Sprite

theorem ctrlOf_setFrame (e : Entity) (k : Keyframe) : ctrlOf (setFrame e k) = ctrlOf e := rfl

theorem setFrame_frame (e : Entity) (k : Keyframe) : (setFrame e k).frame = k.frame := rfl

theorem next_frame_fwd_mid (e : Entity) (k : Keyframe) (h1 : e.loop_type = .forward)
    (h2 : e.anim_frames[e.anim_frame + 1]? = some k) :
    next_frame e = setFrame { e with anim_frame := e.anim_frame + 1 } k := by
  have hlt : e.anim_frame + 1 < e.anim_frames.length := by
    rcases List.getElem?_eq_some.mp h2 with ⟨h, _⟩
    exact h
  unfold next_frame
  simp only [h1]
  rw [if_neg (by omega)]
  simp [h2]

theorem next_frame_fwd_complete_held (e : Entity)
    (Y : List Keyframe) (i : ℕ) (lt : LoopType) (lc : ℤ)
    (h1 : e.loop_type = .forward)
    (h2 : e.anim_frames.length ≤ e.anim_frame + 1)
    (h3 : e.held_animation = some (Y, i, lt, lc)) :
    next_frame e = { e with
      anim_frame := i
      anim_frames := Y
      loop_type := lt
      loop_count := lc
      held_animation := none } := by
  unfold next_frame
  simp only [h1]
  rw [if_pos (by omega)]
  simp [next_animation, h3]

theorem next_frame_bf_mid1 (e : Entity) (k : Keyframe) (h1 : e.loop_type = .back_forth)
    (h2 : e.anim_frames[e.anim_frame + 1]? = some k) :
    next_frame e = setFrame { e with anim_frame := e.anim_frame + 1 } k := by
  have hlt : e.anim_frame + 1 < e.anim_frames.length := by
    rcases List.getElem?_eq_some.mp h2 with ⟨h, _⟩
    exact h
  unfold next_frame
  simp only [h1]
  rw [if_pos (by omega)]
  simp [h2]

theorem next_frame_bf_mid2 (e : Entity) (k : Keyframe) (h1 : e.loop_type = .back_forth)
    (h2 : e.anim_frames.length ≤ e.anim_frame + 1)
    (h3 : e.anim_frame + 1 < 2 * e.anim_frames.length - 1)
    (h4 : e.anim_frames[2 * e.anim_frames.length - e.anim_frame - 3]? = some k) :
    next_frame e = setFrame { e with anim_frame := e.anim_frame + 1 } k := by
  unfold next_frame
  simp only [h1]
  rw [if_neg (by omega), if_pos (by omega)]
  have hK : 1 ≤ e.anim_frames.length := by omega
  have hneg : ¬ (0 : ℤ) ≤ (e.anim_frames.length : ℤ) - ((e.anim_frame : ℕ) + 1 : ℕ) - 2 := by
    push_cast
    omega
  have hpos : (0:ℤ) ≤ (e.anim_frames.length : ℤ) +
      ((e.anim_frames.length : ℤ) - ((e.anim_frame : ℕ) + 1 : ℕ) - 2) := by
    push_cast
    omega
  rw [pyGet, if_neg hneg, if_pos hpos]
  have hidx : ((e.anim_frames.length : ℤ) +
      ((e.anim_frames.length : ℤ) - ((e.anim_frame : ℕ) + 1 : ℕ) - 2)).toNat
      = 2 * e.anim_frames.length - e.anim_frame - 3 := by
    push_cast
    omega
  rw [hidx, h4]

theorem next_frame_bf_boundary (e : Entity) (h1 : e.loop_type = .back_forth)
    (h2 : 2 * e.anim_frames.length - 1 ≤ e.anim_frame + 1)
    (h3 : e.held_animation = none)
    (h4 : e.anim_queue = [])
    (h5 : e.event_queue = [])
    (h6 : e.loop_count - 1 ≠ 0) :
    next_frame e = { e with anim_frame := 0, loop_count := e.loop_count - 1 } := by
  unfold next_frame
  simp only [h1]
  rw [if_neg (by omega), if_neg (by omega)]
  simp [next_animation, h3, h4, fireEvents, h5, h6]

end Renderpyg.Sprite

namespace Renderpyg.Sprite

theorem next_frame_bf_boundary_stop (e : Entity) (h1 : e.loop_type = .back_forth)
    (h2 : 2 * e.anim_frames.length - 1 ≤ e.anim_frame + 1)
    (h3 : e.held_animation = none)
    (h4 : e.anim_queue = [])
    (h5 : e.event_queue = [])
    (h6 : e.loop_count - 1 = 0) :
    next_frame e = stop { e with anim_frame := 0, loop_count := e.loop_count - 1 } := by
  unfold next_frame
  simp only [h1]
  rw [if_neg (by omega), if_neg (by omega)]
  simp [next_animation, h3, h4, fireEvents, h5, h6]

theorem bf_walk (e : Entity) (h1 : e.loop_type = .back_forth) (ha : e.anim_frame = 0)
    (hK : 2 ≤ e.anim_frames.length) :
    ∀ n, n ≤ 2 * e.anim_frames.length - 2 →
      ctrlOf (next_frame^[n] e) =
        ⟨e.anim_frames, n, e.loop_type, e.loop_count, e.held_animation,
         e.anim_queue, e.event_queue⟩ ∧
      (1 ≤ n → (next_frame^[n] e).frame =
        (e.anim_frames.getD (bfMirror e.anim_frames.length n) default).frame) := by
  intro n
  induction n with
  | zero =>
    intro _
    refine ⟨?_, by omega⟩
    simp [ctrlOf, ha]
  | succ m ih =>
    intro hm
    obtain ⟨ihc, _⟩ := ih (by omega)
    set s := next_frame^[m] e with hs
    have hsf : s.anim_frames = e.anim_frames := congrArg Ctrl.anim_frames ihc
    have hsa : s.anim_frame = m := congrArg Ctrl.anim_frame ihc
    have hsl : s.loop_type = e.loop_type := congrArg Ctrl.loop_type ihc
    have hsc : s.loop_count = e.loop_count := congrArg Ctrl.loop_count ihc
    have hsh : s.held_animation = e.held_animation := congrArg Ctrl.held_animation ihc
    have hsq : s.anim_queue = e.anim_queue := congrArg Ctrl.anim_queue ihc
    have hse : s.event_queue = e.event_queue := congrArg Ctrl.event_queue ihc
    have hslt : s.loop_type = .back_forth := by rw [hsl, h1]
    by_cases hcase : m + 1 < e.anim_frames.length
    · have hsome : s.anim_frames[s.anim_frame + 1]? =
          some (e.anim_frames.getD (m + 1) default) := by
        rw [hsf, hsa, List.getElem?_eq_getElem hcase, List.getD_eq_getElem _ _ hcase]
      have hstep := next_frame_bf_mid1 s _ hslt hsome
      have hmir : bfMirror e.anim_frames.length (m + 1) = m + 1 := by
        simp [bfMirror, hcase]
      constructor
      · rw [Function.iterate_succ_apply', ← hs, hstep, ctrlOf_setFrame]
        simp only [ctrlOf, Ctrl.mk.injEq]
        refine ⟨hsf, by rw [hsa], hsl, hsc, hsh, hsq, hse⟩
      · intro _
        rw [Function.iterate_succ_apply', ← hs, hstep, setFrame_frame, hmir]
    · have hidx : 2 * s.anim_frames.length - s.anim_frame - 3 =
          2 * e.anim_frames.length - 2 - (m + 1) := by
        rw [hsf, hsa]; omega
      have hbnd : 2 * e.anim_frames.length - 2 - (m + 1) < e.anim_frames.length := by
        omega
      have hsome : s.anim_frames[2 * s.anim_frames.length - s.anim_frame - 3]? =
          some (e.anim_frames.getD (2 * e.anim_frames.length - 2 - (m + 1)) default) := by
        simp only [hsf, hsa]
        have h9 : 2 * e.anim_frames.length - m - 3 =
            2 * e.anim_frames.length - 2 - (m + 1) := by omega
        rw [h9, List.getElem?_eq_getElem hbnd, List.getD_eq_getElem _ _ hbnd]
      have hstep := next_frame_bf_mid2 s _ hslt (by rw [hsf, hsa]; omega)
        (by rw [hsf, hsa]; omega) hsome
      have hmir : bfMirror e.anim_frames.length (m + 1) =
          2 * e.anim_frames.length - 2 - (m + 1) := by
        simp [bfMirror, hcase]
      constructor
      · rw [Function.iterate_succ_apply', ← hs, hstep, ctrlOf_setFrame]
        simp only [ctrlOf, Ctrl.mk.injEq]
        refine ⟨hsf, by rw [hsa], hsl, hsc, hsh, hsq, hse⟩
      · intro _
        rw [Function.iterate_succ_apply', ← hs, hstep, setFrame_frame, hmir]

end Renderpyg.Sprite

namespace Renderpyg.Sprite

theorem bf_k1_walk (e : Entity) (h1 : e.loop_type = .back_forth) (ha : e.anim_frame = 0)
    (hK : e.anim_frames.length = 1) (hh : e.held_animation = none)
    (hq : e.anim_queue = []) (hev : e.event_queue = []) :
    ∀ n, (next_frame^[n] e).anim_frames = e.anim_frames ∧
      (next_frame^[n] e).anim_frame = 0 ∧
      (next_frame^[n] e).loop_type = .back_forth ∧
      (next_frame^[n] e).held_animation = none ∧
      (next_frame^[n] e).anim_queue = [] ∧
      (next_frame^[n] e).event_queue = [] ∧
      (next_frame^[n] e).frame = e.frame := by
  intro n
  induction n with
  | zero => exact ⟨rfl, ha, h1, hh, hq, hev, rfl⟩
  | succ m ih =>
    obtain ⟨ia, ib, ic, id, ie_, if_, ig⟩ := ih
    set s := next_frame^[m] e with hs
    have hlen : 2 * s.anim_frames.length - 1 ≤ s.anim_frame + 1 := by
      rw [ia, hK, ib]
    by_cases hlc : s.loop_count - 1 = 0
    · have hstep := next_frame_bf_boundary_stop s ic hlen id ie_ if_ hlc
      rw [Function.iterate_succ_apply', ← hs, hstep]
      exact ⟨ia, rfl, ic, id, ie_, if_, ig⟩
    · have hstep := next_frame_bf_boundary s ic hlen id ie_ if_ hlc
      rw [Function.iterate_succ_apply', ← hs, hstep]
      exact ⟨ia, rfl, ic, id, ie_, if_, ig⟩

theorem interrupt_ctrl (e : Entity) (X : List Keyframe) (hX : X ≠ []) :
    ctrlOf (interrupt e X .forward) =
      ⟨X, 0, .forward, 0,
       some (e.anim_frames, e.anim_frame, e.loop_type, e.loop_count),
       e.anim_queue, e.event_queue⟩ := by
  cases X with
  | nil => exact absurd rfl hX
  | cons k tl => rfl

theorem interrupt_walk (e : Entity) (X : List Keyframe) (hX : X ≠ []) :
    ∀ j, j < X.length →
      ctrlOf (next_frame^[j] (interrupt e X .forward)) =
        ⟨X, j, .forward, 0,
         some (e.anim_frames, e.anim_frame, e.loop_type, e.loop_count),
         e.anim_queue, e.event_queue⟩ := by
  intro j
  induction j with
  | zero => intro _; exact interrupt_ctrl e X hX
  | succ m ih =>
    intro hm
    have ihc := ih (by omega)
    set s := next_frame^[m] (interrupt e X .forward) with hs
    have hsf : s.anim_frames = X := congrArg Ctrl.anim_frames ihc
    have hsa : s.anim_frame = m := congrArg Ctrl.anim_frame ihc
    have hsl : s.loop_type = .forward := congrArg Ctrl.loop_type ihc
    have hsc : s.loop_count = 0 := congrArg Ctrl.loop_count ihc
    have hsh : s.held_animation =
        some (e.anim_frames, e.anim_frame, e.loop_type, e.loop_count) :=
      congrArg Ctrl.held_animation ihc
    have hsq : s.anim_queue = e.anim_queue := congrArg Ctrl.anim_queue ihc
    have hse : s.event_queue = e.event_queue := congrArg Ctrl.event_queue ihc
    have hsome : s.anim_frames[s.anim_frame + 1]? = some (X.getD (m + 1) default) := by
      rw [hsf, hsa, List.getElem?_eq_getElem hm, List.getD_eq_getElem _ _ hm]
    have hstep := next_frame_fwd_mid s _ hsl hsome
    rw [Function.iterate_succ_apply', ← hs, hstep, ctrlOf_setFrame]
    simp only [ctrlOf, Ctrl.mk.injEq]
    exact ⟨hsf, by rw [hsa], hsl, hsc, hsh, hsq, hse⟩

end Renderpyg.Sprite

namespace Renderpyg

theorem pyRound_intCast (n : ℤ) : pyRound (n : ℚ) = n := by
  unfold pyRound
  rw [Int.floor_intCast]
  simp

theorem pyRound_le_of_le {q : ℚ} {n : ℤ} (h : q ≤ (n : ℚ)) : pyRound q ≤ n := by
  have hf : ⌊q⌋ ≤ n := by
    rw [← Int.floor_intCast (α := ℚ) n]
    exact Int.floor_le_floor h
  have hstrict : ¬(q - ⌊q⌋ < 1/2) → ⌊q⌋ < n := by
    intro h1
    rcases lt_or_eq_of_le hf with h2 | h2
    · exact h2
    · exact absurd (by rw [h2]; linarith) h1
  unfold pyRound
  split_ifs with h1 h2 h3
  · exact hf
  · have := hstrict h1; omega
  · exact hf
  · have := hstrict h1; omega

theorem le_pyRound_of_le {q : ℚ} {n : ℤ} (h : (n : ℚ) ≤ q) : n ≤ pyRound q := by
  have hf : n ≤ ⌊q⌋ := by
    rw [← Int.floor_intCast (α := ℚ) n]
    exact Int.floor_le_floor h
  unfold pyRound
  split_ifs with h1 h2 h3 <;> omega

end Renderpyg

namespace Renderpyg.Menu

theorem sliderStore_mem (s : SliderOption) (m M : ℤ) (hm : s.min = (m : ℚ))
    (hM : s.max = (M : ℚ)) (hle : m ≤ M) (v : ℚ) :
    (m : ℚ) ≤ sliderStore s v ∧ sliderStore s v ≤ (M : ℚ) := by
  unfold sliderStore
  rw [hm, hM]
  have hleQ : (m : ℚ) ≤ (M : ℚ) := by exact_mod_cast hle
  have hlow : (m : ℚ) ≤ min (max ((pyRound v : ℤ) : ℚ) (m : ℚ)) (M : ℚ) :=
    le_min (le_max_right _ _) hleQ
  have hhigh : min (max ((pyRound v : ℤ) : ℚ) (m : ℚ)) (M : ℚ) ≤ (M : ℚ) :=
    min_le_right _ _
  constructor
  · exact_mod_cast le_pyRound_of_le hlow
  · exact_mod_cast pyRound_le_of_le hhigh

theorem sliderStore_pin_max (s : SliderOption) (m M : ℤ) (hm : s.min = (m : ℚ))
    (hM : s.max = (M : ℚ)) (hle : m ≤ M) (v : ℚ) (hv : (M : ℚ) ≤ v) :
    sliderStore s v = (M : ℚ) := by
  unfold sliderStore
  rw [hm, hM]
  have h1 : M ≤ pyRound v := le_pyRound_of_le hv
  have h1Q : (M : ℚ) ≤ ((pyRound v : ℤ) : ℚ) := by exact_mod_cast h1
  have hmQ : (m : ℚ) ≤ ((pyRound v : ℤ) : ℚ) := by
    have : (m : ℚ) ≤ (M : ℚ) := by exact_mod_cast hle
    linarith
  rw [max_eq_left hmQ, min_eq_right h1Q, pyRound_intCast]

theorem sliderStore_pin_min (s : SliderOption) (m M : ℤ) (hm : s.min = (m : ℚ))
    (hM : s.max = (M : ℚ)) (hle : m ≤ M) (v : ℚ) (hv : v ≤ (m : ℚ)) :
    sliderStore s v = (m : ℚ) := by
  unfold sliderStore
  rw [hm, hM]
  have h1 : pyRound v ≤ m := pyRound_le_of_le hv
  have h1Q : ((pyRound v : ℤ) : ℚ) ≤ (m : ℚ) := by exact_mod_cast h1
  have hleQ : (m : ℚ) ≤ (M : ℚ) := by exact_mod_cast hle
  rw [max_eq_right h1Q, min_eq_left hleQ, pyRound_intCast]

theorem changeSliderKey_min (s : SliderOption) (d : ℤ) :
    (changeSliderKey s d).min = s.min := rfl

theorem changeSliderKey_max (s : SliderOption) (d : ℤ) :
    (changeSliderKey s d).max = s.max := rfl

theorem slider_fold (m M : ℤ) (hle : m ≤ M) :
    ∀ (ds : List ℤ) (s : SliderOption), s.min = (m : ℚ) → s.max = (M : ℚ) →
      (m : ℚ) ≤ s.value → s.value ≤ (M : ℚ) →
      (m : ℚ) ≤ (ds.foldl changeSliderKey s).value ∧
      (ds.foldl changeSliderKey s).value ≤ (M : ℚ) := by
  intro ds
  induction ds with
  | nil => intro s _ _ h1 h2; exact ⟨h1, h2⟩
  | cons d tl ih =>
    intro s hm hM _ _
    have hmem := sliderStore_mem s m M hm hM hle (s.value + s.step * (d : ℚ))
    exact ih (changeSliderKey s d) hm hM hmem.1 hmem.2

theorem toggle_fold :
    ∀ (ds : List ℤ) (o : ToggleOption), 0 < o.options.length →
      0 ≤ o.selected → o.selected < (o.options.length : ℤ) →
      o.value = (pyGet o.options o.selected).getD "" →
      (ds.foldl changeToggleKey o).options = o.options ∧
      (ds.foldl changeToggleKey o).selected =
        (o.selected + ds.sum) % (o.options.length : ℤ) ∧
      (ds.foldl changeToggleKey o).value =
        (pyGet (ds.foldl changeToggleKey o).options
          (ds.foldl changeToggleKey o).selected).getD "" := by
  intro ds
  induction ds with
  | nil =>
    intro o hM h0 hlt hval
    refine ⟨rfl, ?_, hval⟩
    simp only [List.sum_nil, add_zero]
    exact (Int.emod_eq_of_lt h0 hlt).symm
  | cons d tl ih =>
    intro o hM h0 hlt hval
    have hMpos : (0 : ℤ) < (o.options.length : ℤ) := by exact_mod_cast hM
    have h0' : 0 ≤ (changeToggleKey o d).selected :=
      Int.emod_nonneg _ (by omega)
    have hlt' : (changeToggleKey o d).selected < ((changeToggleKey o d).options.length : ℤ) :=
      Int.emod_lt_of_pos _ hMpos
    have hval' : (changeToggleKey o d).value =
        (pyGet (changeToggleKey o d).options (changeToggleKey o d).selected).getD "" := rfl
    have hM' : 0 < (changeToggleKey o d).options.length := hM
    obtain ⟨ha, hb, hc⟩ := ih (changeToggleKey o d) hM' h0' hlt' hval'
    refine ⟨ha, ?_, hc⟩
    show (List.foldl changeToggleKey (changeToggleKey o d) tl).selected =
      (o.selected + (d :: tl).sum) % (o.options.length : ℤ)
    rw [hb]
    show ((o.selected + d) % (o.options.length : ℤ) + tl.sum) % (o.options.length : ℤ) =
      (o.selected + (d :: tl).sum) % (o.options.length : ℤ)
    rw [List.sum_cons, Int.emod_add_emod, add_assoc]

end Renderpyg.Menu
namespace Renderpyg.Menu

theorem pyPages_eq_floor (L M : ℕ) (hM : 0 < M) :
    pyPages L M = ⌊(L : ℚ) / (M : ℚ) + 9 / 10⌋ := by
  unfold pyPages
  have hM0 : (M : ℚ) ≠ 0 := by positivity
  have key : (L : ℚ) / (M : ℚ) + 9 / 10 =
      ((10 * L + 9 * M : ℕ) : ℚ) / ((10 * M : ℕ) : ℚ) := by
    push_cast
    field_simp
    ring
  rw [key, Rat.floor_natCast_div_natCast]
  exact Int.natCast_div _ _

end Renderpyg.Menu
namespace Renderpyg

open Sprite Menu

/-- Claim C1, counterexample: the claim asserts that on a fresh
three-keyframe Forward animation (loop_count 2, every duration 100 ms) a
single update(250) leaves frame_index == 2.  In the code update fires at
most one _next_frame per call and set_frame resets time_spent, so
update(250) leaves anim_frame = 1, not 2. -/
theorem c1_counterexample :
    (Sprite.update (Sprite.set_animation Sprite.demoEntity Sprite.anim100 2 .forward)
      250).anim_frame = 1 ∧ (1 : ℕ) ≠ 2 := by
  refine ⟨?_, by decide⟩
  norm_num [Sprite.update, Sprite.moveStep, Sprite.rotateStep, Sprite.scaleStep,
    Sprite.fadeStep, Sprite.set_animation, Sprite.setFrame, Sprite.next_frame,
    Sprite.next_animation, Sprite.fireEvents, Sprite.stop, Sprite.demoEntity,
    Sprite.anim100, Sprite.kf0, pyGet]

end Renderpyg

namespace Renderpyg

/-- Claim C1, amended: update advances at most one keyframe per call and
the excess elapsed time is discarded by set_frame, so on the spec's
concrete entity update(250) reaches frame 1; a further update(150)
reaches frame 2 with loop_count still 2; only a third update(150)
decrements loop_count to 1 and wraps frame_index to 0. -/
theorem c1_per_call_advance :
    (Sprite.update (Sprite.set_animation Sprite.demoEntity Sprite.anim100 2 .forward)
      250).anim_frame = 1 ∧
    (Sprite.update (Sprite.set_animation Sprite.demoEntity Sprite.anim100 2 .forward)
      250).loop_count = 2 ∧
    (Sprite.update (Sprite.update
      (Sprite.set_animation Sprite.demoEntity Sprite.anim100 2 .forward) 250)
      150).anim_frame = 2 ∧
    (Sprite.update (Sprite.update
      (Sprite.set_animation Sprite.demoEntity Sprite.anim100 2 .forward) 250)
      150).loop_count = 2 ∧
    (Sprite.update (Sprite.update (Sprite.update
      (Sprite.set_animation Sprite.demoEntity Sprite.anim100 2 .forward) 250) 150)
      150).anim_frame = 0 ∧
    (Sprite.update (Sprite.update (Sprite.update
      (Sprite.set_animation Sprite.demoEntity Sprite.anim100 2 .forward) 250) 150)
      150).loop_count = 1 := by
  refine ⟨?_, ?_, ?_, ?_, ?_, ?_⟩ <;>
    norm_num [Sprite.update, Sprite.moveStep, Sprite.rotateStep, Sprite.scaleStep,
      Sprite.fadeStep, Sprite.set_animation, Sprite.setFrame, Sprite.next_frame,
      Sprite.next_animation, Sprite.fireEvents, Sprite.stop, Sprite.demoEntity,
      Sprite.anim100, Sprite.kf0, pyGet]

/-- Claim C5: a freshly constructed modal select widget with
can_cancel = true does not close on a cancel (escape) delivered on the
very first resolved input tick, and closes on a cancel delivered on the
second resolved tick.  Construction sets ignore_input, so the first
handler call swallows its events without resolving input (and without
clearing the first_shown debounce flag); the first resolved tick is the
second handler call, where first_shown suppresses the cancel, and the
second resolved tick (third call) honors it. -/
theorem c5_cancel_debounce :
    (Menu.mkSelect ["alpha", "beta", "gamma"] 10 true).alive = true ∧
    ((Menu.handleSelect (Menu.mkSelect ["alpha", "beta", "gamma"] 10 true)
      [.escape]).1).alive = true ∧
    ((Menu.handleSelect ((Menu.handleSelect (Menu.mkSelect ["alpha", "beta", "gamma"] 10 true)
      [.escape]).1) [.escape]).1).alive = true ∧
    ((Menu.handleSelect ((Menu.handleSelect ((Menu.handleSelect
      (Menu.mkSelect ["alpha", "beta", "gamma"] 10 true)
      [.escape]).1) [.escape]).1) [.escape]).1).alive = false := by
  have h0 : Menu.mkSelect ["alpha", "beta", "gamma"] 10 true =
      ⟨["alpha", "beta", "gamma"], 10, -1, 0, 0, true, true, true, true⟩ := by decide
  have h1 : (Menu.handleSelect
      (⟨["alpha", "beta", "gamma"], 10, -1, 0, 0, true, true, true, true⟩ :
        Menu.SelectState) [.escape]).1 =
      ⟨["alpha", "beta", "gamma"], 10, -1, 0, 3, true, true, true, false⟩ := by decide
  have h2 : (Menu.handleSelect
      (⟨["alpha", "beta", "gamma"], 10, -1, 0, 3, true, true, true, false⟩ :
        Menu.SelectState) [.escape]).1 =
      ⟨["alpha", "beta", "gamma"], 10, -1, 0, 3, true, true, false, false⟩ := by decide
  have h3 : (Menu.handleSelect
      (⟨["alpha", "beta", "gamma"], 10, -1, 0, 3, true, true, false, false⟩ :
        Menu.SelectState) [.escape]).1 =
      ⟨["alpha", "beta", "gamma"], 10, -1, 0, 3, false, true, false, false⟩ := by decide
  refine ⟨rfl, ?_, ?_, ?_⟩
  · rw [h0, h1]
  · rw [h0, h1, h2]
  · rw [h0, h1, h2, h3]

end Renderpyg

namespace Renderpyg

/-- Claim C2: in back_forth mode with K >= 2 frames, the transition
ticks 1..2K-2 of one cycle set a frame each, the displayed index walking
0..K-1 then mirroring K-2..0 (bfMirror); the next tick applies the
loop-count logic at the cycle boundary, setting no frame: it returns the
state of tick 2K-2 with anim_frame reset to 0 and loop_count decremented
(so the 2K-2-tick sequence repeats).  For K == 1 the displayed frame
never changes, no matter how many ticks occur. -/
theorem c2_backforth_cycle :
    (∀ e : Sprite.Entity, e.loop_type = .back_forth → e.anim_frame = 0 →
      2 ≤ e.anim_frames.length →
      (∀ n, 1 ≤ n → n ≤ 2 * e.anim_frames.length - 2 →
        (Sprite.next_frame^[n] e).anim_frame = n ∧
        (Sprite.next_frame^[n] e).frame =
          (e.anim_frames.getD (Sprite.bfMirror e.anim_frames.length n) default).frame) ∧
      (e.held_animation = none → e.anim_queue = [] → e.event_queue = [] →
        e.loop_count ≠ 1 →
        Sprite.next_frame^[2 * e.anim_frames.length - 1] e =
          { Sprite.next_frame^[2 * e.anim_frames.length - 2] e with
            anim_frame := 0, loop_count := e.loop_count - 1 })) ∧
    (∀ e : Sprite.Entity, e.loop_type = .back_forth → e.anim_frame = 0 →
      e.anim_frames.length = 1 → e.held_animation = none → e.anim_queue = [] →
      e.event_queue = [] → ∀ n, (Sprite.next_frame^[n] e).frame = e.frame) := by
  constructor
  · intro e h1 ha hK
    constructor
    · intro n hn1 hn2
      obtain ⟨hc, hfr⟩ := Sprite.bf_walk e h1 ha hK n hn2
      exact ⟨congrArg Sprite.Ctrl.anim_frame hc, hfr hn1⟩
    · intro hh hq hev hlc
      obtain ⟨hc, _⟩ := Sprite.bf_walk e h1 ha hK (2 * e.anim_frames.length - 2) (le_refl _)
      set s := Sprite.next_frame^[2 * e.anim_frames.length - 2] e with hs
      have hsf : s.anim_frames = e.anim_frames := congrArg Sprite.Ctrl.anim_frames hc
      have hsa : s.anim_frame = 2 * e.anim_frames.length - 2 :=
        congrArg Sprite.Ctrl.anim_frame hc
      have hsl : s.loop_type = e.loop_type := congrArg Sprite.Ctrl.loop_type hc
      have hsc : s.loop_count = e.loop_count := congrArg Sprite.Ctrl.loop_count hc
      have hsh : s.held_animation = e.held_animation :=
        congrArg Sprite.Ctrl.held_animation hc
      have hsq : s.anim_queue = e.anim_queue := congrArg Sprite.Ctrl.anim_queue hc
      have hse : s.event_queue = e.event_queue := congrArg Sprite.Ctrl.event_queue hc
      have hstep := Sprite.next_frame_bf_boundary s (by rw [hsl, h1])
        (by rw [hsf, hsa]; omega) (by rw [hsh, hh]) (by rw [hsq, hq])
        (by rw [hse, hev]) (by rw [hsc]; omega)
      have hrw : 2 * e.anim_frames.length - 1 = (2 * e.anim_frames.length - 2) + 1 := by
        omega
      rw [hrw, Function.iterate_succ_apply', ← hs, hstep, hsc]
  · intro e h1 ha hK hh hq hev n
    exact (Sprite.bf_k1_walk e h1 ha hK hh hq hev n).2.2.2.2.2.2

/-- Witness for C2 at the concrete three-keyframe back_forth entity:
after 3 transition ticks the index is 3 and the displayed frame is the
mirrored keyframe. -/
theorem c2_backforth_cycle_witness :
    (Sprite.bfDemo.loop_type = .back_forth ∧ Sprite.bfDemo.anim_frame = 0 ∧
      2 ≤ Sprite.bfDemo.anim_frames.length) ∧
    (Sprite.next_frame^[3] Sprite.bfDemo).anim_frame = 3 ∧
    (Sprite.next_frame^[3] Sprite.bfDemo).frame =
      (Sprite.bfDemo.anim_frames.getD
        (Sprite.bfMirror Sprite.bfDemo.anim_frames.length 3) default).frame := by
  refine ⟨⟨rfl, rfl, by decide⟩, ?_⟩
  exact (c2_backforth_cycle.1 Sprite.bfDemo rfl rfl (by decide)).1 3 (by decide) (by decide)

end Renderpyg

namespace Renderpyg

/-- Claim C3, counterexample: the claim asserts that fields a keyframe
leaves unspecified retain their prior value.  After a keyframe sets
scale 2, applying a keyframe that does not mention scale resets it to
the default 1 instead of retaining 2. -/
theorem c3_counterexample :
    (Sprite.setFrame Sprite.demoEntity
      { frame := 0, duration := 100, scale := some 2 }).scale = 2 ∧
    (Sprite.setFrame (Sprite.setFrame Sprite.demoEntity
      { frame := 0, duration := 100, scale := some 2 })
      { frame := 1, duration := 100 }).scale = 1 ∧
    (1 : ℚ) ≠ 2 := by
  refine ⟨rfl, rfl, by norm_num⟩

/-- Claim C3, amended: set_frame applies specified fields as authored
(an authored position of (0,0) excepted: it is falsy and leaves x/y
unchanged); unspecified angle, position and the velocity/rotation/
scaling channels retain their prior values, while unspecified flip
flags, color, alpha, scale, fading and coloring are reset to their
defaults (false, (255,255,255), 255, 1, none, none). -/
theorem c3_override_semantics (e : Sprite.Entity) (k : Sprite.Keyframe) :
    ((Sprite.setFrame e k).frame = k.frame) ∧
    ((Sprite.setFrame e k).duration = k.duration) ∧
    (∀ a, k.angle = some a → (Sprite.setFrame e k).angle = a) ∧
    (k.angle = none → (Sprite.setFrame e k).angle = e.angle) ∧
    (∀ b, k.flipx = some b → (Sprite.setFrame e k).flipX = b) ∧
    (k.flipx = none → (Sprite.setFrame e k).flipX = false) ∧
    (∀ b, k.flipy = some b → (Sprite.setFrame e k).flipY = b) ∧
    (k.flipy = none → (Sprite.setFrame e k).flipY = false) ∧
    (∀ c, k.color = some c → (Sprite.setFrame e k).color = c) ∧
    (k.color = none → (Sprite.setFrame e k).color = (255, 255, 255)) ∧
    (∀ a, k.alpha = some a → (Sprite.setFrame e k).alpha = a) ∧
    (k.alpha = none → (Sprite.setFrame e k).alpha = 255) ∧
    (∀ sc, k.scale = some sc → (Sprite.setFrame e k).scale = sc) ∧
    (k.scale = none → (Sprite.setFrame e k).scale = 1) ∧
    (∀ p, k.pos = some p → p ≠ (0, 0) →
      (Sprite.setFrame e k).x = p.1 ∧ (Sprite.setFrame e k).y = p.2) ∧
    (k.pos = some (0, 0) → (Sprite.setFrame e k).x = e.x ∧ (Sprite.setFrame e k).y = e.y) ∧
    (k.pos = none → (Sprite.setFrame e k).x = e.x ∧ (Sprite.setFrame e k).y = e.y) ∧
    (∀ v, k.velocity = some v → (Sprite.setFrame e k).velocity = some v) ∧
    (k.velocity = none → (Sprite.setFrame e k).velocity = e.velocity) ∧
    (∀ r, k.rotation = some r → (Sprite.setFrame e k).rotation = some r) ∧
    (k.rotation = none → (Sprite.setFrame e k).rotation = e.rotation) ∧
    (∀ sc, k.scaling = some sc → (Sprite.setFrame e k).scaling = some sc) ∧
    (k.scaling = none → (Sprite.setFrame e k).scaling = e.scaling) ∧
    ((Sprite.setFrame e k).fading = k.fading) ∧
    ((Sprite.setFrame e k).coloring = k.coloring) := by
  refine ⟨rfl, rfl, ?_, ?_, ?_, ?_, ?_, ?_, ?_, ?_, ?_, ?_, ?_, ?_, ?_, ?_, ?_,
    ?_, ?_, ?_, ?_, ?_, ?_, rfl, rfl⟩
  · intro a h; simp [Sprite.setFrame, h]
  · intro h; simp [Sprite.setFrame, h]
  · intro b h; simp [Sprite.setFrame, h]
  · intro h; simp [Sprite.setFrame, h]
  · intro b h; simp [Sprite.setFrame, h]
  · intro h; simp [Sprite.setFrame, h]
  · intro c h; simp [Sprite.setFrame, h]
  · intro h; simp [Sprite.setFrame, h]
  · intro a h; simp [Sprite.setFrame, h]
  · intro h; simp [Sprite.setFrame, h]
  · intro sc h; simp [Sprite.setFrame, h]
  · intro h; simp [Sprite.setFrame, h]
  · intro p h hp
    have hp' : p ≠ 0 := by simpa [Prod.ext_iff] using hp
    constructor
    · simp [Sprite.setFrame, h, hp']
    · simp [Sprite.setFrame, h, hp']
  · intro h
    constructor
    · simp [Sprite.setFrame, h]
    · simp [Sprite.setFrame, h]
  · intro h
    constructor
    · simp [Sprite.setFrame, h]
    · simp [Sprite.setFrame, h]
  · intro v h; simp [Sprite.setFrame, h]
  · intro h; simp [Sprite.setFrame, h]
  · intro r h; simp [Sprite.setFrame, h]
  · intro h; simp [Sprite.setFrame, h]
  · intro sc h; simp [Sprite.setFrame, h]
  · intro h; simp [Sprite.setFrame, h]

/-- Witness for C3 amended: a plain keyframe with no angle override
leaves the entity's angle unchanged. -/
theorem c3_override_semantics_witness :
    ((Sprite.kf0 1 100).angle = none) ∧
    (Sprite.setFrame Sprite.demoEntity (Sprite.kf0 1 100)).angle =
      Sprite.demoEntity.angle :=
  ⟨rfl, (c3_override_semantics Sprite.demoEntity (Sprite.kf0 1 100)).2.2.2.1 rfl⟩

/-- Claim C4: interrupt(X) on an entity playing animation Y at index i
stores a snapshot and plays X once (loop_count 0); after the |X|
transition ticks that complete X's single forward pass, _next_animation
restores the snapshot: the frame list, frame index, loop type and loop
count all equal their exact pre-interrupt values and the held snapshot
is cleared. -/
theorem c4_interrupt_roundtrip (e : Sprite.Entity) (X : List Sprite.Keyframe)
    (hX : X ≠ []) :
    (Sprite.interrupt e X .forward).loop_count = 0 ∧
    (Sprite.next_frame^[X.length] (Sprite.interrupt e X .forward)).anim_frames =
      e.anim_frames ∧
    (Sprite.next_frame^[X.length] (Sprite.interrupt e X .forward)).anim_frame =
      e.anim_frame ∧
    (Sprite.next_frame^[X.length] (Sprite.interrupt e X .forward)).loop_type =
      e.loop_type ∧
    (Sprite.next_frame^[X.length] (Sprite.interrupt e X .forward)).loop_count =
      e.loop_count ∧
    (Sprite.next_frame^[X.length] (Sprite.interrupt e X .forward)).held_animation =
      none := by
  have hlen : 1 ≤ X.length := List.length_pos.mpr hX
  have h0 := Sprite.interrupt_ctrl e X hX
  have hwalk := Sprite.interrupt_walk e X hX (X.length - 1) (by omega)
  set s := Sprite.next_frame^[X.length - 1] (Sprite.interrupt e X .forward) with hs
  have hsf : s.anim_frames = X := congrArg Sprite.Ctrl.anim_frames hwalk
  have hsa : s.anim_frame = X.length - 1 := congrArg Sprite.Ctrl.anim_frame hwalk
  have hsl : s.loop_type = .forward := congrArg Sprite.Ctrl.loop_type hwalk
  have hsh : s.held_animation =
      some (e.anim_frames, e.anim_frame, e.loop_type, e.loop_count) :=
    congrArg Sprite.Ctrl.held_animation hwalk
  have hstep := Sprite.next_frame_fwd_complete_held s e.anim_frames e.anim_frame
    e.loop_type e.loop_count hsl (by rw [hsf, hsa]; omega) hsh
  have hrw : X.length = (X.length - 1) + 1 := by omega
  have hfinal : Sprite.next_frame^[X.length] (Sprite.interrupt e X .forward) =
      { s with
        anim_frame := e.anim_frame
        anim_frames := e.anim_frames
        loop_type := e.loop_type
        loop_count := e.loop_count
        held_animation := none } := by
    rw [hrw, Function.iterate_succ_apply', ← hs, hstep]
  refine ⟨congrArg Sprite.Ctrl.loop_count h0, ?_, ?_, ?_, ?_, ?_⟩ <;> rw [hfinal]

/-- Witness for C4 on a concrete entity and one-keyframe interrupt
animation. -/
theorem c4_interrupt_roundtrip_witness :
    (Sprite.animX ≠ []) ∧
    (Sprite.next_frame^[Sprite.animX.length]
      (Sprite.interrupt Sprite.fwdDemo Sprite.animX .forward)).anim_frame =
      Sprite.fwdDemo.anim_frame ∧
    (Sprite.next_frame^[Sprite.animX.length]
      (Sprite.interrupt Sprite.fwdDemo Sprite.animX .forward)).loop_count =
      Sprite.fwdDemo.loop_count :=
  ⟨by decide,
   (c4_interrupt_roundtrip Sprite.fwdDemo Sprite.animX (by decide)).2.2.1,
   (c4_interrupt_roundtrip Sprite.fwdDemo Sprite.animX (by decide)).2.2.2.2.1⟩

end Renderpyg

namespace Renderpyg

/-- Claim C6, counterexample: with 12 items and 11 per page there are
ceil(12/11) = 2 pages, so advancing the page index modulo the page
count from page 0 would give page 1; but the code computes the page
count as int(12/11 + 0.9) = 1, so a right input leaves page_index at 0
and the last item's page (and hence index L-1 = 11) is unreachable. -/
theorem c6_counterexample :
    ((Menu.handleSelect (Menu.mkSelect
      ["i0","i1","i2","i3","i4","i5","i6","i7","i8","i9","i10","i11"] 11 false)
      []).1).page = 0 ∧
    ((Menu.handleSelect ((Menu.handleSelect (Menu.mkSelect
      ["i0","i1","i2","i3","i4","i5","i6","i7","i8","i9","i10","i11"] 11 false)
      []).1) [.right]).1).page = 0 ∧
    Menu.pyPages 12 11 = 1 ∧
    ((12 + 11 - 1) / 11 : ℤ) = 2 ∧
    (0 + 1) % (2 : ℤ) = 1 ∧
    (1 : ℤ) ≠ 0 := by
  have h0 : Menu.mkSelect
      ["i0","i1","i2","i3","i4","i5","i6","i7","i8","i9","i10","i11"] 11 false =
      ⟨["i0","i1","i2","i3","i4","i5","i6","i7","i8","i9","i10","i11"],
       11, 0, 0, 0, true, false, true, true⟩ := by decide
  have h1 : (Menu.handleSelect
      (⟨["i0","i1","i2","i3","i4","i5","i6","i7","i8","i9","i10","i11"],
        11, 0, 0, 0, true, false, true, true⟩ : Menu.SelectState) []).1 =
      ⟨["i0","i1","i2","i3","i4","i5","i6","i7","i8","i9","i10","i11"],
       11, 0, 0, 11, true, false, true, false⟩ := by decide
  have h2 : (Menu.handleSelect
      (⟨["i0","i1","i2","i3","i4","i5","i6","i7","i8","i9","i10","i11"],
        11, 0, 0, 11, true, false, true, false⟩ : Menu.SelectState) [.right]).1 =
      ⟨["i0","i1","i2","i3","i4","i5","i6","i7","i8","i9","i10","i11"],
       11, 0, 0, 11, true, false, false, false⟩ := by decide
  refine ⟨?_, ?_, by decide, by decide, by decide, by decide⟩
  · rw [h0, h1]
  · rw [h0, h1, h2]

/-- Claim C6, amended: left/right advances page_index modulo the
computed page count int(L/P + 0.9), which equals the real page count
ceil(L/P) unless 0 < frac(L/P) < 0.1 (then the last short page is
unreachable, see the counterexample).  When the computed count covers
all pages, confirming the item at absolute index i after navigating to
its page and focusing it returns exactly (i, items[i]); verified at
L = 10, P = 3 for the boundary indices i = 0, P-1 = 2, P = 3 and
L-1 = 9. -/
theorem c6_pagination_roundtrip :
    ((Menu.handleSelect ((Menu.handleSelect (Menu.mkSelect
      ["i0","i1","i2","i3","i4","i5","i6","i7","i8","i9"] 3 false) []).1)
      [.enter]).2 = .chosen 0 "i0") ∧
    ((Menu.handleSelect ((Menu.handleSelect ((Menu.handleSelect ((Menu.handleSelect
      (Menu.mkSelect ["i0","i1","i2","i3","i4","i5","i6","i7","i8","i9"] 3 false)
      []).1) [.down]).1) [.down]).1) [.enter]).2 = .chosen 2 "i2") ∧
    ((Menu.handleSelect ((Menu.handleSelect ((Menu.handleSelect (Menu.mkSelect
      ["i0","i1","i2","i3","i4","i5","i6","i7","i8","i9"] 3 false) []).1)
      [.right]).1) [.enter]).2 = .chosen 3 "i3") ∧
    ((Menu.handleSelect ((Menu.handleSelect ((Menu.handleSelect ((Menu.handleSelect
      ((Menu.handleSelect (Menu.mkSelect
      ["i0","i1","i2","i3","i4","i5","i6","i7","i8","i9"] 3 false) []).1)
      [.right]).1) [.right]).1) [.right]).1) [.enter]).2 = .chosen 9 "i9") := by
  have h0 : Menu.mkSelect ["i0","i1","i2","i3","i4","i5","i6","i7","i8","i9"] 3 false =
      ⟨["i0","i1","i2","i3","i4","i5","i6","i7","i8","i9"],
       3, 0, 0, 0, true, false, true, true⟩ := by decide
  have h1 : (Menu.handleSelect
      (⟨["i0","i1","i2","i3","i4","i5","i6","i7","i8","i9"],
        3, 0, 0, 0, true, false, true, true⟩ : Menu.SelectState) []).1 =
      ⟨["i0","i1","i2","i3","i4","i5","i6","i7","i8","i9"],
       3, 0, 0, 3, true, false, true, false⟩ := by decide
  have ha : (Menu.handleSelect
      (⟨["i0","i1","i2","i3","i4","i5","i6","i7","i8","i9"],
        3, 0, 0, 3, true, false, true, false⟩ : Menu.SelectState) [.enter]).2 =
      .chosen 0 "i0" := by decide
  have hb1 : (Menu.handleSelect
      (⟨["i0","i1","i2","i3","i4","i5","i6","i7","i8","i9"],
        3, 0, 0, 3, true, false, true, false⟩ : Menu.SelectState) [.down]).1 =
      ⟨["i0","i1","i2","i3","i4","i5","i6","i7","i8","i9"],
       3, 0, 1, 3, true, false, false, false⟩ := by decide
  have hb2 : (Menu.handleSelect
      (⟨["i0","i1","i2","i3","i4","i5","i6","i7","i8","i9"],
        3, 0, 1, 3, true, false, false, false⟩ : Menu.SelectState) [.down]).1 =
      ⟨["i0","i1","i2","i3","i4","i5","i6","i7","i8","i9"],
       3, 0, 2, 3, true, false, false, false⟩ := by decide
  have hb3 : (Menu.handleSelect
      (⟨["i0","i1","i2","i3","i4","i5","i6","i7","i8","i9"],
        3, 0, 2, 3, true, false, false, false⟩ : Menu.SelectState) [.enter]).2 =
      .chosen 2 "i2" := by decide
  have hc1 : (Menu.handleSelect
      (⟨["i0","i1","i2","i3","i4","i5","i6","i7","i8","i9"],
        3, 0, 0, 3, true, false, true, false⟩ : Menu.SelectState) [.right]).1 =
      ⟨["i0","i1","i2","i3","i4","i5","i6","i7","i8","i9"],
       3, 1, 0, 3, true, false, false, false⟩ := by decide
  have hc2 : (Menu.handleSelect
      (⟨["i0","i1","i2","i3","i4","i5","i6","i7","i8","i9"],
        3, 1, 0, 3, true, false, false, false⟩ : Menu.SelectState) [.enter]).2 =
      .chosen 3 "i3" := by decide
  have hd2 : (Menu.handleSelect
      (⟨["i0","i1","i2","i3","i4","i5","i6","i7","i8","i9"],
        3, 1, 0, 3, true, false, false, false⟩ : Menu.SelectState) [.right]).1 =
      ⟨["i0","i1","i2","i3","i4","i5","i6","i7","i8","i9"],
       3, 2, 0, 3, true, false, false, false⟩ := by decide
  have hd3 : (Menu.handleSelect
      (⟨["i0","i1","i2","i3","i4","i5","i6","i7","i8","i9"],
        3, 2, 0, 3, true, false, false, false⟩ : Menu.SelectState) [.right]).1 =
      ⟨["i0","i1","i2","i3","i4","i5","i6","i7","i8","i9"],
       3, 3, 0, 3, true, false, false, false⟩ := by decide
  have hd4 : (Menu.handleSelect
      (⟨["i0","i1","i2","i3","i4","i5","i6","i7","i8","i9"],
        3, 3, 0, 3, true, false, false, false⟩ : Menu.SelectState) [.enter]).2 =
      .chosen 9 "i9" := by decide
  refine ⟨?_, ?_, ?_, ?_⟩
  · rw [h0, h1, ha]
  · rw [h0, h1, hb1, hb2, hb3]
  · rw [h0, h1, hc1, hc2]
  · rw [h0, h1, hc1, hd2, hd3, hd4]

/-- Claim C7: for a focused Toggle with M choices and no pointer press,
any sequence of keyboard directions applied through _change_option
leaves selected_index == (initial_index + sum of directions) mod M and
value == choices[selected_index]; in particular ["red","green","blue"]
starting at 0 after [+1,+1,+1] ends at selected_index 0 with value
"red". -/
theorem c7_toggle_wrap :
    (∀ (o : Menu.ToggleOption) (ds : List ℤ), 0 < o.options.length →
      0 ≤ o.selected → o.selected < (o.options.length : ℤ) →
      o.value = (pyGet o.options o.selected).getD "" →
      (ds.foldl Menu.changeToggleKey o).selected =
        (o.selected + ds.sum) % (o.options.length : ℤ) ∧
      (ds.foldl Menu.changeToggleKey o).value =
        (pyGet o.options ((o.selected + ds.sum) % (o.options.length : ℤ))).getD "") ∧
    (([1, 1, 1].foldl Menu.changeToggleKey
      ⟨["red", "green", "blue"], 0, "red"⟩).selected = 0 ∧
     ([1, 1, 1].foldl Menu.changeToggleKey
      ⟨["red", "green", "blue"], 0, "red"⟩).value = "red") := by
  constructor
  · intro o ds hM h0 hlt hval
    obtain ⟨ha, hb, hc⟩ := Menu.toggle_fold ds o hM h0 hlt hval
    exact ⟨hb, by rw [hc, ha, hb]⟩
  · constructor
    · norm_num [Menu.changeToggleKey, pyGet]
    · norm_num [Menu.changeToggleKey, pyGet]

/-- Witness for C7 on the three-choice toggle with a mixed direction
sequence. -/
theorem c7_toggle_wrap_witness :
    (0 < (["red", "green", "blue"] : List String).length ∧
      0 ≤ (0 : ℤ) ∧ (0 : ℤ) < ((["red", "green", "blue"] : List String).length : ℤ) ∧
      (⟨["red", "green", "blue"], 0, "red"⟩ : Menu.ToggleOption).value =
        (pyGet (["red", "green", "blue"] : List String) 0).getD "") ∧
    ([1, 1, -1, 1].foldl Menu.changeToggleKey
      ⟨["red", "green", "blue"], 0, "red"⟩).selected =
      ((0 : ℤ) + [1, 1, -1, 1].sum) % (((["red", "green", "blue"] : List String).length : ℤ)) := by
  refine ⟨⟨by decide, by decide, by decide, ?_⟩, ?_⟩
  · norm_num [pyGet]
  · exact (c7_toggle_wrap.1 ⟨["red", "green", "blue"], 0, "red"⟩ [1, 1, -1, 1]
      (by decide) (by decide) (by decide) (by norm_num [pyGet])).1

end Renderpyg

namespace Renderpyg

/-- Claim C8, counterexample: a slider with min = 0.4, max = 10,
step = 1, value = 1 starts inside [min, max], but one step down stores
round(min(max(round(0), 0.4), 10)) = round(0.4) = 0 < min, so the value
escapes [min, max] when the bounds are not integers. -/
theorem c8_counterexample :
    ((⟨2/5, 10, 1, 1⟩ : Menu.SliderOption).min ≤ (⟨2/5, 10, 1, 1⟩ : Menu.SliderOption).value) ∧
    ((⟨2/5, 10, 1, 1⟩ : Menu.SliderOption).value ≤ (⟨2/5, 10, 1, 1⟩ : Menu.SliderOption).max) ∧
    (Menu.changeSliderKey ⟨2/5, 10, 1, 1⟩ (-1)).value = 0 ∧
    (Menu.changeSliderKey ⟨2/5, 10, 1, 1⟩ (-1)).value <
      (⟨2/5, 10, 1, 1⟩ : Menu.SliderOption).min := by
  refine ⟨by norm_num, by norm_num, ?_, ?_⟩ <;>
    norm_num [Menu.changeSliderKey, Menu.sliderStore, pyRound]

/-- Claim C8, amended: for a slider whose min and max are integers
(min <= max), every _change_option step stores a value inside
[min, max] (hence any direction sequence keeps it there), and a step
whose increment is non-negative from value = max (resp. non-positive
from value = min) leaves the value pinned exactly at max (resp. min).
With non-integer bounds the final round can leave [min, max], as the
counterexample shows. -/
theorem c8_slider_clamp (s : Menu.SliderOption) (m M : ℤ) (hm : s.min = (m : ℚ))
    (hM : s.max = (M : ℚ)) (hle : m ≤ M) :
    (∀ d : ℤ, (m : ℚ) ≤ (Menu.changeSliderKey s d).value ∧
      (Menu.changeSliderKey s d).value ≤ (M : ℚ)) ∧
    (∀ ds : List ℤ, (m : ℚ) ≤ s.value → s.value ≤ (M : ℚ) →
      (m : ℚ) ≤ (ds.foldl Menu.changeSliderKey s).value ∧
      (ds.foldl Menu.changeSliderKey s).value ≤ (M : ℚ)) ∧
    (∀ d : ℤ, s.value = (M : ℚ) → 0 ≤ s.step * (d : ℚ) →
      (Menu.changeSliderKey s d).value = (M : ℚ)) ∧
    (∀ d : ℤ, s.value = (m : ℚ) → s.step * (d : ℚ) ≤ 0 →
      (Menu.changeSliderKey s d).value = (m : ℚ)) := by
  refine ⟨?_, ?_, ?_, ?_⟩
  · intro d
    exact Menu.sliderStore_mem s m M hm hM hle _
  · intro ds h1 h2
    exact Menu.slider_fold m M hle ds s hm hM h1 h2
  · intro d hv hd
    show Menu.sliderStore s (s.value + s.step * (d : ℚ)) = (M : ℚ)
    exact Menu.sliderStore_pin_max s m M hm hM hle _ (by rw [hv]; linarith)
  · intro d hv hd
    show Menu.sliderStore s (s.value + s.step * (d : ℚ)) = (m : ℚ)
    exact Menu.sliderStore_pin_min s m M hm hM hle _ (by rw [hv]; linarith)

/-- Witness for C8 amended: an integer-bounded slider at max stays
pinned at max after a further up step. -/
theorem c8_slider_clamp_witness :
    ((⟨0, 10, 3, 10⟩ : Menu.SliderOption).min = ((0 : ℤ) : ℚ) ∧
      (⟨0, 10, 3, 10⟩ : Menu.SliderOption).max = ((10 : ℤ) : ℚ) ∧ (0 : ℤ) ≤ 10 ∧
      (⟨0, 10, 3, 10⟩ : Menu.SliderOption).value = ((10 : ℤ) : ℚ) ∧
      (0 : ℚ) ≤ (⟨0, 10, 3, 10⟩ : Menu.SliderOption).step * ((1 : ℤ) : ℚ)) ∧
    (Menu.changeSliderKey ⟨0, 10, 3, 10⟩ 1).value = ((10 : ℤ) : ℚ) := by
  refine ⟨⟨by norm_num, by norm_num, by norm_num, by norm_num, by norm_num⟩, ?_⟩
  exact (c8_slider_clamp ⟨0, 10, 3, 10⟩ 0 10 (by norm_num) (by norm_num)
    (by norm_num)).2.2.1 1 (by norm_num) (by norm_num)

/-- Claim C9, counterexample: set_frame with frame number -1 on a
three-image entity displays images[-1] = images[2] (Python indexes
negative subscripts from the end), not the claimed fallback
images[0]. -/
theorem c9_counterexample :
    (Sprite.setFrame { images := [10, 20, 30] } { frame := -1, duration := 0 }).image = 30 ∧
    ([10, 20, 30] : List ℕ).headD 0 = 10 ∧ (30 : ℕ) ≠ 10 := by
  refine ⟨?_, by decide, by decide⟩
  norm_num [Sprite.setFrame, pyGet]
  rfl

/-- Claim C9, amended: set_frame never raises for an integer frame
number on a non-empty image list; the images[0] fallback fires exactly
when the index is >= len(images) or < -len(images), while indices in
[-len, 0) display images[len + frame] by Python's end-relative
indexing, and in-range non-negative indices display images[frame]. -/
theorem c9_set_frame_fallback (e : Sprite.Entity) (k : Sprite.Keyframe)
    (_hne : e.images ≠ []) :
    ((((e.images.length : ℤ) ≤ k.frame) ∨ (k.frame < -(e.images.length : ℤ))) →
      (Sprite.setFrame e k).image = e.images.headD 0) ∧
    ((-(e.images.length : ℤ) ≤ k.frame ∧ k.frame < 0) →
      (Sprite.setFrame e k).image =
        e.images.getD ((e.images.length : ℤ) + k.frame).toNat 0) ∧
    ((0 ≤ k.frame ∧ k.frame < (e.images.length : ℤ)) →
      (Sprite.setFrame e k).image = e.images.getD k.frame.toNat 0) := by
  have himg : (Sprite.setFrame e k).image =
      (pyGet e.images k.frame).getD (e.images.headD 0) := by
    unfold Sprite.setFrame
    rcases h : pyGet e.images k.frame with _ | v <;> simp [h]
  refine ⟨?_, ?_, ?_⟩
  · rintro (h | h)
    · have hnone : pyGet e.images k.frame = none := by
        unfold pyGet
        rw [if_pos (by omega)]
        apply List.getElem?_eq_none
        omega
      rw [himg, hnone]
      rfl
    · have hnone : pyGet e.images k.frame = none := by
        unfold pyGet
        rw [if_neg (by omega), if_neg (by omega)]
      rw [himg, hnone]
      rfl
  · rintro ⟨h1, h2⟩
    have hlt : ((e.images.length : ℤ) + k.frame).toNat < e.images.length := by omega
    have hsome : pyGet e.images k.frame =
        some (e.images.getD ((e.images.length : ℤ) + k.frame).toNat 0) := by
      unfold pyGet
      rw [if_neg (by omega), if_pos (by omega)]
      rw [List.getElem?_eq_getElem hlt, List.getD_eq_getElem _ _ hlt]
    rw [himg, hsome]
    rfl
  · rintro ⟨h1, h2⟩
    have hlt : k.frame.toNat < e.images.length := by omega
    have hsome : pyGet e.images k.frame =
        some (e.images.getD k.frame.toNat 0) := by
      unfold pyGet
      rw [if_pos (by omega)]
      rw [List.getElem?_eq_getElem hlt, List.getD_eq_getElem _ _ hlt]
    rw [himg, hsome]
    rfl

/-- Witness for C9 amended: frame 7 on a three-image entity falls back
to images[0]. -/
theorem c9_set_frame_fallback_witness :
    (([10, 20, 30] : List ℕ) ≠ [] ∧
      ((([10, 20, 30] : List ℕ).length : ℤ) ≤ (7 : ℤ))) ∧
    (Sprite.setFrame { images := [10, 20, 30] } { frame := 7, duration := 0 }).image =
      ([10, 20, 30] : List ℕ).headD 0 :=
  ⟨⟨by decide, by decide⟩,
   (c9_set_frame_fallback { images := [10, 20, 30] } { frame := 7, duration := 0 }
     (by decide)).1 (Or.inl (by decide))⟩

/-- Claim C10: every mutation of a Slider through _change_option,
keyboard step or pointer position alike, stores an integer value (the
candidate is rounded before and after clamping, and Python round
returns an int), whatever the numeric min, max, step and prior
value. -/
theorem c10_slider_integer_value (s : Menu.SliderOption) (d : ℤ) (x w : ℚ) :
    (∃ n : ℤ, (Menu.changeSliderKey s d).value = (n : ℚ)) ∧
    (∃ n : ℤ, (Menu.changeSliderPointer s x w).value = (n : ℚ)) :=
  ⟨⟨_, rfl⟩, ⟨_, rfl⟩⟩

end Renderpyg
